import Mathlib

/-!
Verification of `geonode/contrib/datatables/column_checker.py`.

The module checks Postgres column-type compatibility before building a SQL
join clause.  We embed it shallowly: the external database is an oracle
(`World`) giving, for each (table, column) pair, the outcome of the
information-schema query, whether a connection attempt succeeds, and whether
an ALTER statement succeeds.  Every operation returns its result together
with a trace of the external events it performed (connection acquire and
release, queries sent, ALTER statements executed), and an `Outcome` that is
either a normal Python return value or an uncaught exception (`crash`).
Python `None` is modelled by `Option.none`; Python string formatting of a
possibly-`None` value is modelled by `pyFmt`.
-/

/-- The fixed tuple `POSTGRES_CHAR_DATATYPES` from the source. -/
def POSTGRES_CHAR_DATATYPES : List String :=
  ["character varying", "varchar", "character", "char", "text"]

/-- The fixed tuple `POSTGRES_NUMERIC_DATATYPES` from the source. -/
def POSTGRES_NUMERIC_DATATYPES : List String :=
  ["smallint", "integer", "bigint", "decimal", "numeric", "real",
   "double precision", "smallserial", "serial", "bigserial"]

/-- The four constructor fields of the `ColumnChecker` class.  Each may be
Python `None`, hence `Option String`. -/
structure ColumnChecker where
  target_table : Option String
  target_attribute : Option String
  dt_table : Option String
  dt_attribute : Option String
deriving DecidableEq

/-- Python rendering of a possibly-`None` value inside `%s` / `format`
interpolation: `None` renders as the string `"None"`. -/
def pyFmt (o : Option String) : String :=
  match o with
  | none => "None"
  | some s => s

/-- `ColumnChecker.is_character_column` (the `self` argument is unused in the
source): `None` is not a character column; otherwise exact membership in
`POSTGRES_CHAR_DATATYPES`. -/
def is_character_column (data_type : Option String) : Bool :=
  match data_type with
  | none => false
  | some s => POSTGRES_CHAR_DATATYPES.contains s

/-- `ColumnChecker.is_numeric_column`: `None` is not a numeric column;
otherwise exact membership in `POSTGRES_NUMERIC_DATATYPES`. -/
def is_numeric_column (data_type : Option String) : Bool :=
  match data_type with
  | none => false
  | some s => POSTGRES_NUMERIC_DATATYPES.contains s

/-- External events an operation can perform against the metadata source. -/
inductive Ev where
  | acquire
  | release
  | query (table_name table_attribute : String)
  | alterStmt (stmt : String)
deriving DecidableEq

/-- Outcome of sending the information-schema query for one column:
either a row whose `data_type` field may itself be SQL NULL (`none`), or an
exception raised during execute/fetch (this also covers the zero-row case,
where `fetchone()` returns `None` and subscripting it raises). -/
inductive QueryOutcome where
  | row (data_type : Option String)
  | exc (errText : String)
deriving DecidableEq

/-- The external world: whether `psycopg2.connect` succeeds, the outcome of
the metadata query for each (table, column) pair, and whether a given ALTER
statement executes without raising. -/
structure World where
  connectOk : Bool
  query : String → String → QueryOutcome
  alterOk : String → Bool

/-- A Python call either returns a value or raises an uncaught exception. -/
inductive Outcome (α : Type) where
  | ret (a : α)
  | crash (err : String)
deriving DecidableEq

/-- Return value of `get_column_datatype`: `(True, data_type)` where the
payload may be `None`, or `(False, err_msg)`. -/
inductive DTResult where
  | ok (data_type : Option String)
  | err (msg : String)
deriving DecidableEq

/-- The error message built in the `except` branch of `get_column_datatype`;
`errText` stands for `str(e[0])`. -/
def lookup_err_msg (table_attribute table_name errText : String) : String :=
  "Error finding data type for column '" ++ table_attribute ++ "' in table '" ++
    table_name ++ "': " ++ errText

/-- `ColumnChecker.get_column_datatype` (static).  Missing parameters fail
before any external call (empty trace).  Otherwise a connection is opened and
the query sent; on a query exception the `except` branch closes the
connection and returns an error tuple.  If the connection attempt itself
raises, `conn` is unbound, so the `if conn:` test in the `except` branch
raises `NameError`, which escapes the function: modelled as `crash`. -/
def get_column_datatype (w : World) (table_name table_attribute : Option String) :
    Outcome DTResult × List Ev :=
  match table_name, table_attribute with
  | none, _ =>
      (Outcome.ret (DTResult.err "The table_name and table_attribute must be specified."), [])
  | _, none =>
      (Outcome.ret (DTResult.err "The table_name and table_attribute must be specified."), [])
  | some t, some c =>
      if w.connectOk then
        match w.query t c with
        | QueryOutcome.row dt =>
            (Outcome.ret (DTResult.ok dt), [Ev.acquire, Ev.query t c, Ev.release])
        | QueryOutcome.exc e =>
            (Outcome.ret (DTResult.err (lookup_err_msg c t e)),
             [Ev.acquire, Ev.query t c, Ev.release])
      else
        (Outcome.crash "NameError", [])

/-- Return value of `alter_column_to_var`: `(True, None)` or `(False, msg)`. -/
inductive AlterResult where
  | ok
  | err (msg : String)
deriving DecidableEq

/-- The ALTER statement string built by `alter_column_to_var`. -/
def alter_stmt_str (table_name attr_name : String) : String :=
  "ALTER TABLE " ++ table_name ++ " ALTER COLUMN " ++ attr_name ++
    " TYPE varchar(255) USING " ++ attr_name ++ "::varchar;"

/-- `ColumnChecker.alter_column_to_var`.  Missing parameters fail with
parameter-specific messages before any external call.  Otherwise the ALTER
statement is executed; success commits, failure is caught and turned into a
generic message; in both cases the `finally` clause closes the connection.
If the connection attempt itself raises, `conn` is unbound and the `finally`
clause raises `NameError`: modelled as `crash`. -/
def alter_column_to_var (w : World) (table_name attr_name : Option String) :
    Outcome AlterResult × List Ev :=
  match table_name with
  | none => (Outcome.ret (AlterResult.err "table_name cannot be None"), [])
  | some t =>
      match attr_name with
      | none => (Outcome.ret (AlterResult.err "attr_name cannot be None"), [])
      | some a =>
          if w.connectOk then
            if w.alterOk (alter_stmt_str t a) then
              (Outcome.ret AlterResult.ok,
               [Ev.acquire, Ev.alterStmt (alter_stmt_str t a), Ev.release])
            else
              (Outcome.ret (AlterResult.err "Error when trying to convert numeric column to character"),
               [Ev.acquire, Ev.alterStmt (alter_stmt_str t a), Ev.release])
          else
            (Outcome.crash "NameError", [])

/-- `ColumnChecker.get_type_text_char_or_numeric`: `None` stays `None`,
otherwise one of the three fixed classification texts. -/
def get_type_text_char_or_numeric (data_type : Option String) : Option String :=
  match data_type with
  | none => none
  | some _ =>
      if is_character_column data_type then some "a \"character\""
      else if is_numeric_column data_type then some "a \"numeric\""
      else some "neither a character nor a numeric"

/-- The incompatibility explanation built (identically) by both
`are_join_columns_compatible` and `get_column_join_stmt`: candidate column
and its classification text first, then the target column and its
classification text.  `format` renders a `None` classification as "None". -/
def incompatible_msg (cc : ColumnChecker)
    (target_data_type datatable_data_type : Option String) : String :=
  "<br />Your chosen column \"" ++ pyFmt cc.dt_attribute ++ "\" is type " ++
    pyFmt (get_type_text_char_or_numeric datatable_data_type) ++
    ".  However, the chosen layer column \"" ++ pyFmt cc.target_attribute ++
    "\" is type " ++ pyFmt (get_type_text_char_or_numeric target_data_type)

/-- The join clause built by `get_column_join_stmt`:
`'%s."%s" = %s."%s"' % (target_table, target_attribute, dt_table, dt_attribute)`. -/
def join_clause_of (cc : ColumnChecker) : String :=
  pyFmt cc.target_table ++ ".\"" ++ pyFmt cc.target_attribute ++ "\" = " ++
    pyFmt cc.dt_table ++ ".\"" ++ pyFmt cc.dt_attribute ++ "\""

/-- The unused local `varchar_str` of `get_column_join_stmt`. -/
def varchar_str : String := "::varchar(255)"

/-- Return value of `are_join_columns_compatible`: `(True, None)` or
`(False, err_msg)`. -/
inductive CompatResult where
  | ok
  | err (msg : String)
deriving DecidableEq

/-- `ColumnChecker.are_join_columns_compatible`: look up the target type
(failure short-circuits with a fixed message), then the candidate type
(failure short-circuits with a fixed message); equal raw values, both
character, or both numeric are compatible; anything else is incompatible
with the explanatory message. -/
def are_join_columns_compatible (w : World) (cc : ColumnChecker) :
    Outcome CompatResult × List Ev :=
  match get_column_datatype w cc.target_table cc.target_attribute with
  | (Outcome.crash n, tr1) => (Outcome.crash n, tr1)
  | (Outcome.ret (DTResult.err _), tr1) =>
      (Outcome.ret (CompatResult.err "Sorry, the target column is not available."), tr1)
  | (Outcome.ret (DTResult.ok target_data_type), tr1) =>
      match get_column_datatype w cc.dt_table cc.dt_attribute with
      | (Outcome.crash n, tr2) => (Outcome.crash n, tr1 ++ tr2)
      | (Outcome.ret (DTResult.err _), tr2) =>
          (Outcome.ret (CompatResult.err "The data type of your column was not available"), tr1 ++ tr2)
      | (Outcome.ret (DTResult.ok datatable_data_type), tr2) =>
          if target_data_type = datatable_data_type then
            (Outcome.ret CompatResult.ok, tr1 ++ tr2)
          else if is_character_column target_data_type && is_character_column datatable_data_type then
            (Outcome.ret CompatResult.ok, tr1 ++ tr2)
          else if is_numeric_column target_data_type && is_numeric_column datatable_data_type then
            (Outcome.ret CompatResult.ok, tr1 ++ tr2)
          else
            (Outcome.ret (CompatResult.err (incompatible_msg cc target_data_type datatable_data_type)),
             tr1 ++ tr2)

/-- Return value of `get_column_join_stmt`: `(True, join_stmt)` or
`(False, err_msg)`. -/
inductive JoinResult where
  | ok (join_stmt : String)
  | err (msg : String)
deriving DecidableEq

/-- `ColumnChecker.get_column_join_stmt`.  Same lookup sequence and messages
as `are_join_columns_compatible`; on success returns the join clause.  The
casting branch is guarded in the source by the literal constant `False`
(`if False:   #with_casting`), so the `with_casting` parameter is accepted
but inert; the branch body (calling `alter_column_to_var` on the candidate
column) is embedded faithfully under that constant-false guard. -/
def get_column_join_stmt (w : World) (cc : ColumnChecker) (with_casting : Bool) :
    Outcome JoinResult × List Ev :=
  match get_column_datatype w cc.target_table cc.target_attribute with
  | (Outcome.crash n, tr1) => (Outcome.crash n, tr1)
  | (Outcome.ret (DTResult.err _), tr1) =>
      (Outcome.ret (JoinResult.err "Sorry, the target column is not available."), tr1)
  | (Outcome.ret (DTResult.ok target_data_type), tr1) =>
      match get_column_datatype w cc.dt_table cc.dt_attribute with
      | (Outcome.crash n, tr2) => (Outcome.crash n, tr1 ++ tr2)
      | (Outcome.ret (DTResult.err _), tr2) =>
          (Outcome.ret (JoinResult.err "The data type of your column was not available"), tr1 ++ tr2)
      | (Outcome.ret (DTResult.ok datatable_data_type), tr2) =>
          if target_data_type = datatable_data_type then
            (Outcome.ret (JoinResult.ok (join_clause_of cc)), tr1 ++ tr2)
          else if is_character_column target_data_type && is_character_column datatable_data_type then
            (Outcome.ret (JoinResult.ok (join_clause_of cc)), tr1 ++ tr2)
          else if is_numeric_column target_data_type && is_numeric_column datatable_data_type then
            (Outcome.ret (JoinResult.ok (join_clause_of cc)), tr1 ++ tr2)
          else if (false : Bool) then
            if is_character_column target_data_type && is_numeric_column datatable_data_type then
              match alter_column_to_var w cc.dt_table cc.dt_attribute with
              | (Outcome.crash n, tr3) => (Outcome.crash n, tr1 ++ tr2 ++ tr3)
              | (Outcome.ret AlterResult.ok, tr3) =>
                  (Outcome.ret (JoinResult.ok (join_clause_of cc)), tr1 ++ tr2 ++ tr3)
              | (Outcome.ret (AlterResult.err m), tr3) =>
                  (Outcome.ret (JoinResult.err m), tr1 ++ tr2 ++ tr3)
            else
              (Outcome.ret (JoinResult.err (incompatible_msg cc target_data_type datatable_data_type)),
               tr1 ++ tr2)
          else
            (Outcome.ret (JoinResult.err (incompatible_msg cc target_data_type datatable_data_type)),
             tr1 ++ tr2)

/-- The spec's `classifyType` operation, packaged from the source's
classification primitives: the `None` guard of
`get_type_text_char_or_numeric` together with `is_character_column` and
`is_numeric_column`, in the source's test order. -/
inductive ColumnTypeClass where
  | Unknown
  | Character
  | Numeric
  | Other
deriving DecidableEq

/-- Classification of a raw type value, mirroring the branch structure of
`get_type_text_char_or_numeric`. -/
def classifyType (data_type : Option String) : ColumnTypeClass :=
  match data_type with
  | none => ColumnTypeClass.Unknown
  | some _ =>
      if is_character_column data_type then ColumnTypeClass.Character
      else if is_numeric_column data_type then ColumnTypeClass.Numeric
      else ColumnTypeClass.Other

/-- Swapping the target and candidate column references of a checker. -/
def swap_checker (cc : ColumnChecker) : ColumnChecker :=
  ⟨cc.dt_table, cc.dt_attribute, cc.target_table, cc.target_attribute⟩

/-! ## Helper lemmas -/

/-- No string in the character set is in the numeric set. -/
theorem char_datatypes_not_numeric :
    ∀ s ∈ POSTGRES_CHAR_DATATYPES, s ∉ POSTGRES_NUMERIC_DATATYPES := by decide

/-- A value classified as character is not classified as numeric. -/
theorem char_not_numeric (o : Option String) (h : is_character_column o = true) :
    is_numeric_column o = false := by
  cases o with
  | none => simp [is_character_column] at h
  | some s =>
    have hmem : s ∈ POSTGRES_CHAR_DATATYPES := by
      simpa [is_character_column] using h
    have : s ∉ POSTGRES_NUMERIC_DATATYPES := char_datatypes_not_numeric s hmem
    simpa [is_numeric_column] using this

/-- A value classified as numeric is not classified as character. -/
theorem numeric_not_char (o : Option String) (h : is_numeric_column o = true) :
    is_character_column o = false := by
  cases hc : is_character_column o with
  | false => rfl
  | true => rw [char_not_numeric o hc] at h; exact absurd h (by simp)

/-- `get_column_datatype` never executes an ALTER statement. -/
theorem get_column_datatype_no_alter (w : World) (tn ta : Option String) (s : String) :
    Ev.alterStmt s ∉ (get_column_datatype w tn ta).2 := by
  rcases tn with _ | t
  · simp [get_column_datatype]
  rcases ta with _ | c
  · simp [get_column_datatype]
  cases hc : w.connectOk with
  | false => simp [get_column_datatype, hc]
  | true =>
    rcases hq : w.query t c with dt | e <;> simp [get_column_datatype, hc, hq]

/-- Characterisation of the success verdict of `are_join_columns_compatible`
when both lookups succeed. -/
theorem are_join_ok_iff (w : World) (cc : ColumnChecker) (t d : Option String)
    (tr1 tr2 : List Ev)
    (h1 : get_column_datatype w cc.target_table cc.target_attribute =
      (Outcome.ret (DTResult.ok t), tr1))
    (h2 : get_column_datatype w cc.dt_table cc.dt_attribute =
      (Outcome.ret (DTResult.ok d), tr2)) :
    (are_join_columns_compatible w cc).1 = Outcome.ret CompatResult.ok ↔
      (t = d ∨ (is_character_column t && is_character_column d) = true ∨
        (is_numeric_column t && is_numeric_column d) = true) := by
  unfold are_join_columns_compatible
  simp only [h1, h2]
  split_ifs with hEq hChar hNum
  · simp [hEq]
  · simp [hChar]
  · simp [hNum]
  · simp [hEq, hChar, hNum]

/-- When both lookups succeed and none of the three compatibility tests
holds, `are_join_columns_compatible` returns the incompatibility message and
the concatenated lookup traces. -/
theorem are_join_err_eq (w : World) (cc : ColumnChecker) (t d : Option String)
    (tr1 tr2 : List Ev)
    (h1 : get_column_datatype w cc.target_table cc.target_attribute =
      (Outcome.ret (DTResult.ok t), tr1))
    (h2 : get_column_datatype w cc.dt_table cc.dt_attribute =
      (Outcome.ret (DTResult.ok d), tr2))
    (hne : t ≠ d)
    (hchar : (is_character_column t && is_character_column d) = false)
    (hnum : (is_numeric_column t && is_numeric_column d) = false) :
    are_join_columns_compatible w cc =
      (Outcome.ret (CompatResult.err (incompatible_msg cc t d)), tr1 ++ tr2) := by
  unfold are_join_columns_compatible
  simp only [h1, h2]
  simp [hne, hchar, hnum]

/-- When both lookups succeed and one of the three compatibility tests holds,
`get_column_join_stmt` returns the join clause. -/
theorem join_ok_eq (w : World) (cc : ColumnChecker) (b : Bool) (t d : Option String)
    (tr1 tr2 : List Ev)
    (h1 : get_column_datatype w cc.target_table cc.target_attribute =
      (Outcome.ret (DTResult.ok t), tr1))
    (h2 : get_column_datatype w cc.dt_table cc.dt_attribute =
      (Outcome.ret (DTResult.ok d), tr2))
    (hcond : t = d ∨ (is_character_column t && is_character_column d) = true ∨
      (is_numeric_column t && is_numeric_column d) = true) :
    get_column_join_stmt w cc b =
      (Outcome.ret (JoinResult.ok (join_clause_of cc)), tr1 ++ tr2) := by
  unfold get_column_join_stmt
  simp only [h1, h2]
  rcases hcond with hEq | hChar | hNum
  · simp [hEq]
  · by_cases hEq : t = d
    · simp [hEq]
    · simp [hEq, hChar]
  · by_cases hEq : t = d
    · simp [hEq]
    · by_cases hChar : (is_character_column t && is_character_column d) = true
      · simp [hEq, hChar]
      · simp [hEq, hChar, hNum]

/-- When both lookups succeed and none of the three compatibility tests
holds, `get_column_join_stmt` fails with the incompatibility message and the
concatenated lookup traces, for every value of the flag. -/
theorem join_err_eq (w : World) (cc : ColumnChecker) (b : Bool) (t d : Option String)
    (tr1 tr2 : List Ev)
    (h1 : get_column_datatype w cc.target_table cc.target_attribute =
      (Outcome.ret (DTResult.ok t), tr1))
    (h2 : get_column_datatype w cc.dt_table cc.dt_attribute =
      (Outcome.ret (DTResult.ok d), tr2))
    (hne : t ≠ d)
    (hchar : (is_character_column t && is_character_column d) = false)
    (hnum : (is_numeric_column t && is_numeric_column d) = false) :
    get_column_join_stmt w cc b =
      (Outcome.ret (JoinResult.err (incompatible_msg cc t d)), tr1 ++ tr2) := by
  unfold get_column_join_stmt
  simp only [h1, h2]
  simp [hne, hchar, hnum]

/-! ## Concrete worlds and checkers used by witnesses and counterexamples -/

/-- Target `("parcels","geoid")`, candidate `("census","geoid")`. -/
def ccParcels : ColumnChecker :=
  ⟨some "parcels", some "geoid", some "census", some "geoid"⟩

/-- Every column reports type `uuid`. -/
def wUuid : World :=
  ⟨true, fun _ _ => QueryOutcome.row (some "uuid"), fun _ => true⟩

/-- Every column reports type `text`. -/
def wText : World :=
  ⟨true, fun _ _ => QueryOutcome.row (some "text"), fun _ => true⟩

/-- Columns of table `parcels` report `text`; all others report `integer`. -/
def wMix : World :=
  ⟨true,
   fun tbl _ => if tbl = "parcels" then QueryOutcome.row (some "text")
                else QueryOutcome.row (some "integer"),
   fun _ => true⟩

/-- The lookup for table `parcels` raises; all others report `text`. -/
def wTargetFail : World :=
  ⟨true,
   fun tbl _ => if tbl = "parcels" then QueryOutcome.exc "boom"
                else QueryOutcome.row (some "text"),
   fun _ => true⟩

/-- The lookup for table `census` raises; all others report `text`. -/
def wDtFail : World :=
  ⟨true,
   fun tbl _ => if tbl = "census" then QueryOutcome.exc "boom"
                else QueryOutcome.row (some "text"),
   fun _ => true⟩

/-- Columns of table `parcels` report a row with NULL `data_type`; all others
report `text`. -/
def wNullType : World :=
  ⟨true,
   fun tbl _ => if tbl = "parcels" then QueryOutcome.row none
                else QueryOutcome.row (some "text"),
   fun _ => true⟩

/-! ## Claims -/

/-- Claim C1: when both metadata lookups succeed with raw values `t` and `d`,
`are_join_columns_compatible` succeeds exactly when the raw values are equal,
or both classify as character, or both classify as numeric; in every other
case it returns the incompatibility explanation.  Equality is tested before
classification, so identical `Other`-classified values are compatible. -/
theorem are_join_columns_compatible_verdict (w : World) (cc : ColumnChecker)
    (t d : Option String) (tr1 tr2 : List Ev)
    (h1 : get_column_datatype w cc.target_table cc.target_attribute =
      (Outcome.ret (DTResult.ok t), tr1))
    (h2 : get_column_datatype w cc.dt_table cc.dt_attribute =
      (Outcome.ret (DTResult.ok d), tr2)) :
    ((are_join_columns_compatible w cc).1 = Outcome.ret CompatResult.ok ↔
      (t = d ∨ (is_character_column t && is_character_column d) = true ∨
        (is_numeric_column t && is_numeric_column d) = true))
  ∧ (¬(t = d ∨ (is_character_column t && is_character_column d) = true ∨
        (is_numeric_column t && is_numeric_column d) = true) →
      (are_join_columns_compatible w cc).1 =
        Outcome.ret (CompatResult.err (incompatible_msg cc t d))) := by
  refine ⟨are_join_ok_iff w cc t d tr1 tr2 h1 h2, fun hn => ?_⟩
  push_neg at hn
  obtain ⟨hne, hchar, hnum⟩ := hn
  have hres := are_join_err_eq w cc t d tr1 tr2 h1 h2 hne
    (by simpa using hchar) (by simpa using hnum)
  simp [hres]

/-- Witness for C1: both columns report the identical `Other`-classified raw
value `uuid`, and the verdict is compatible. -/
theorem are_join_columns_compatible_verdict_witness :
    (are_join_columns_compatible wUuid ccParcels).1 = Outcome.ret CompatResult.ok
  ∧ is_character_column (some "uuid") = false
  ∧ is_numeric_column (some "uuid") = false := by
  refine ⟨?_, by decide, by decide⟩
  exact (are_join_columns_compatible_verdict wUuid ccParcels (some "uuid") (some "uuid")
    [Ev.acquire, Ev.query "parcels" "geoid", Ev.release]
    [Ev.acquire, Ev.query "census" "geoid", Ev.release] rfl rfl).1.mpr (Or.inl rfl)

/-- Claim C2: for every world, checker state and flag value,
`get_column_join_stmt` succeeds exactly when `are_join_columns_compatible`
succeeds, and each error message is returned by one exactly when it is
returned by the other; they differ only in the success payload. -/
theorem get_column_join_stmt_mirrors_compat (w : World) (cc : ColumnChecker) (b : Bool) :
    ((∃ s, (get_column_join_stmt w cc b).1 = Outcome.ret (JoinResult.ok s)) ↔
      (are_join_columns_compatible w cc).1 = Outcome.ret CompatResult.ok)
  ∧ (∀ m, (get_column_join_stmt w cc b).1 = Outcome.ret (JoinResult.err m) ↔
      (are_join_columns_compatible w cc).1 = Outcome.ret (CompatResult.err m)) := by
  unfold get_column_join_stmt are_join_columns_compatible
  rcases h1 : get_column_datatype w cc.target_table cc.target_attribute with ⟨a1 | n1, tr1⟩
  · rcases a1 with dt1 | m1
    · rcases h2 : get_column_datatype w cc.dt_table cc.dt_attribute with ⟨a2 | n2, tr2⟩
      · rcases a2 with dt2 | m2
        · simp only [h1, h2]
          split_ifs <;> simp_all
        · simp [h1, h2]
      · simp [h1, h2]
    · simp [h1]
  · simp [h1]

/-- Claim C3: on a character/numeric pair with differing raw values,
`get_column_join_stmt` returns the incompatibility failure for every value of
the `with_casting` flag, and the event trace contains no ALTER statement, so
`alter_column_to_var` is never invoked. -/
theorem cast_path_never_activates (w : World) (cc : ColumnChecker) (b : Bool)
    (t d : Option String) (tr1 tr2 : List Ev)
    (h1 : get_column_datatype w cc.target_table cc.target_attribute =
      (Outcome.ret (DTResult.ok t), tr1))
    (h2 : get_column_datatype w cc.dt_table cc.dt_attribute =
      (Outcome.ret (DTResult.ok d), tr2))
    (hclass : (is_character_column t && is_numeric_column d) = true ∨
      (is_numeric_column t && is_character_column d) = true)
    (hne : t ≠ d) :
    get_column_join_stmt w cc b =
      (Outcome.ret (JoinResult.err (incompatible_msg cc t d)), tr1 ++ tr2)
  ∧ ∀ s, Ev.alterStmt s ∉ tr1 ++ tr2 := by
  have hchar : (is_character_column t && is_character_column d) = false := by
    rcases hclass with hcl | hcl
    · obtain ⟨_, hnd⟩ := Bool.and_eq_true_iff.mp hcl
      simp [numeric_not_char d hnd]
    · obtain ⟨hnt, _⟩ := Bool.and_eq_true_iff.mp hcl
      simp [numeric_not_char t hnt]
  have hnum : (is_numeric_column t && is_numeric_column d) = false := by
    rcases hclass with hcl | hcl
    · obtain ⟨hct, _⟩ := Bool.and_eq_true_iff.mp hcl
      simp [char_not_numeric t hct]
    · obtain ⟨_, hcd⟩ := Bool.and_eq_true_iff.mp hcl
      simp [char_not_numeric d hcd]
  refine ⟨join_err_eq w cc b t d tr1 tr2 h1 h2 hne hchar hnum, fun s hs => ?_⟩
  have ht1 : (get_column_datatype w cc.target_table cc.target_attribute).2 = tr1 := by
    rw [h1]
  have ht2 : (get_column_datatype w cc.dt_table cc.dt_attribute).2 = tr2 := by
    rw [h2]
  rcases List.mem_append.mp hs with hsm | hsm
  · exact get_column_datatype_no_alter w cc.target_table cc.target_attribute s (ht1 ▸ hsm)
  · exact get_column_datatype_no_alter w cc.dt_table cc.dt_attribute s (ht2 ▸ hsm)

/-- Witness for C3: target `text`, candidate `integer`; with the flag set the
result is the incompatibility failure and the trace holds no ALTER. -/
theorem cast_path_never_activates_witness :
    get_column_join_stmt wMix ccParcels true =
      (Outcome.ret (JoinResult.err "<br />Your chosen column \"geoid\" is type a \"numeric\".  However, the chosen layer column \"geoid\" is type a \"character\""),
       [Ev.acquire, Ev.query "parcels" "geoid", Ev.release,
        Ev.acquire, Ev.query "census" "geoid", Ev.release]) := by
  have h := cast_path_never_activates wMix ccParcels true (some "text") (some "integer")
    [Ev.acquire, Ev.query "parcels" "geoid", Ev.release]
    [Ev.acquire, Ev.query "census" "geoid", Ev.release]
    rfl rfl (Or.inl (by decide)) (by decide)
  exact h.1

/-- Claim C4: on a compatible pair the returned fragment is exactly
`<target_table>."<target_attribute>" = <dt_table>."<dt_attribute>"`, with
table names unquoted, column names double-quoted, and no cast suffix. -/
theorem join_clause_format (w : World) (cc : ColumnChecker) (b : Bool)
    (t d : Option String) (tr1 tr2 : List Ev)
    (h1 : get_column_datatype w cc.target_table cc.target_attribute =
      (Outcome.ret (DTResult.ok t), tr1))
    (h2 : get_column_datatype w cc.dt_table cc.dt_attribute =
      (Outcome.ret (DTResult.ok d), tr2))
    (hcond : t = d ∨ (is_character_column t && is_character_column d) = true ∨
      (is_numeric_column t && is_numeric_column d) = true) :
    (get_column_join_stmt w cc b).1 =
      Outcome.ret (JoinResult.ok (pyFmt cc.target_table ++ ".\"" ++
        pyFmt cc.target_attribute ++ "\" = " ++ pyFmt cc.dt_table ++ ".\"" ++
        pyFmt cc.dt_attribute ++ "\"")) := by
  have h := join_ok_eq w cc b t d tr1 tr2 h1 h2 hcond
  simp [h, join_clause_of]

/-- Witness for C4: target `("parcels","geoid")` and candidate
`("census","geoid")` give exactly `parcels."geoid" = census."geoid"`. -/
theorem join_clause_format_witness :
    (get_column_join_stmt wText ccParcels true).1 =
      Outcome.ret (JoinResult.ok "parcels.\"geoid\" = census.\"geoid\"") := by
  have h := join_clause_format wText ccParcels true (some "text") (some "text")
    [Ev.acquire, Ev.query "parcels" "geoid", Ev.release]
    [Ev.acquire, Ev.query "census" "geoid", Ev.release] rfl rfl (Or.inl rfl)
  exact h

/-- Counterexample for C5 as stated: when the target lookup fails, the
message is `"Sorry, the target column is not available."`, not the claimed
`"the target column is not available."`. -/
theorem lookup_failure_message_cex :
    (are_join_columns_compatible wTargetFail ccParcels).1 =
      Outcome.ret (CompatResult.err "Sorry, the target column is not available.")
  ∧ (are_join_columns_compatible wTargetFail ccParcels).1 ≠
      Outcome.ret (CompatResult.err "the target column is not available.") :=
  ⟨rfl, by decide⟩

/-- Claim C5 (amended): a failed target lookup yields the lookup-failure
message `"Sorry, the target column is not available."` and the whole trace is
that of the target lookup alone, so the candidate lookup is never attempted;
a successful target lookup followed by a failed candidate lookup yields
`"The data type of your column was not available"`. -/
theorem lookup_failure_short_circuit (w : World) (cc : ColumnChecker) :
    (∀ m tr1, get_column_datatype w cc.target_table cc.target_attribute =
        (Outcome.ret (DTResult.err m), tr1) →
      are_join_columns_compatible w cc =
        (Outcome.ret (CompatResult.err "Sorry, the target column is not available."), tr1))
  ∧ (∀ t tr1 m tr2, get_column_datatype w cc.target_table cc.target_attribute =
        (Outcome.ret (DTResult.ok t), tr1) →
      get_column_datatype w cc.dt_table cc.dt_attribute =
        (Outcome.ret (DTResult.err m), tr2) →
      are_join_columns_compatible w cc =
        (Outcome.ret (CompatResult.err "The data type of your column was not available"),
         tr1 ++ tr2)) := by
  constructor
  · intro m tr1 h1
    unfold are_join_columns_compatible
    simp [h1]
  · intro t tr1 m tr2 h1 h2
    unfold are_join_columns_compatible
    simp [h1, h2]

/-- Witness for C5 (amended): a concrete failing target lookup, showing the
exact message and that the trace stops after the target query; and a
concrete failing candidate lookup with its exact message. -/
theorem lookup_failure_short_circuit_witness :
    are_join_columns_compatible wTargetFail ccParcels =
      (Outcome.ret (CompatResult.err "Sorry, the target column is not available."),
       [Ev.acquire, Ev.query "parcels" "geoid", Ev.release])
  ∧ are_join_columns_compatible wDtFail ccParcels =
      (Outcome.ret (CompatResult.err "The data type of your column was not available"),
       [Ev.acquire, Ev.query "parcels" "geoid", Ev.release,
        Ev.acquire, Ev.query "census" "geoid", Ev.release]) := by
  constructor
  · exact (lookup_failure_short_circuit wTargetFail ccParcels).1 _ _ rfl
  · exact (lookup_failure_short_circuit wDtFail ccParcels).2 (some "text") _ _ _ rfl rfl

/-- Claim C6: `classifyType` is total and exact: `None` classifies as
`Unknown` (distinct from `Other`); a present string classifies as
`Character` exactly when it is an exact member of the character set, as
`Numeric` exactly when an exact member of the numeric set, and otherwise as
`Other` (e.g. `geometry`); the two sets are disjoint. -/
theorem classifyType_total_and_exact (s : String) :
    classifyType none = ColumnTypeClass.Unknown
  ∧ ColumnTypeClass.Unknown ≠ ColumnTypeClass.Other
  ∧ (classifyType (some s) = ColumnTypeClass.Character ↔ s ∈ POSTGRES_CHAR_DATATYPES)
  ∧ (classifyType (some s) = ColumnTypeClass.Numeric ↔ s ∈ POSTGRES_NUMERIC_DATATYPES)
  ∧ (s ∉ POSTGRES_CHAR_DATATYPES → s ∉ POSTGRES_NUMERIC_DATATYPES →
      classifyType (some s) = ColumnTypeClass.Other)
  ∧ ¬(s ∈ POSTGRES_CHAR_DATATYPES ∧ s ∈ POSTGRES_NUMERIC_DATATYPES)
  ∧ classifyType (some "geometry") = ColumnTypeClass.Other := by
  have hciff : is_character_column (some s) = true ↔ s ∈ POSTGRES_CHAR_DATATYPES := by
    simp [is_character_column]
  have hniff : is_numeric_column (some s) = true ↔ s ∈ POSTGRES_NUMERIC_DATATYPES := by
    simp [is_numeric_column]
  refine ⟨rfl, by decide, ?_, ?_, ?_, ?_, by decide⟩
  · rw [← hciff]
    cases hc : is_character_column (some s) with
    | true => simp [classifyType, hc]
    | false =>
      cases hn : is_numeric_column (some s) with
      | true => simp [classifyType, hc, hn]
      | false => simp [classifyType, hc, hn]
  · rw [← hniff]
    cases hc : is_character_column (some s) with
    | true =>
      have hn := char_not_numeric (some s) hc
      simp [classifyType, hc, hn]
    | false =>
      cases hn : is_numeric_column (some s) with
      | true => simp [classifyType, hc, hn]
      | false => simp [classifyType, hc, hn]
  · intro h1 h2
    have hc : is_character_column (some s) = false := by
      cases hcc : is_character_column (some s) with
      | false => rfl
      | true => exact absurd (hciff.mp hcc) h1
    have hn : is_numeric_column (some s) = false := by
      cases hnn : is_numeric_column (some s) with
      | false => rfl
      | true => exact absurd (hniff.mp hnn) h2
    simp [classifyType, hc, hn]
  · rintro ⟨ha, hb⟩
    exact char_datatypes_not_numeric s ha hb

/-- Witness for C6: `geometry` is in neither set and classifies as `Other`;
`None` classifies as `Unknown`. -/
theorem classifyType_total_and_exact_witness :
    classifyType (some "geometry") = ColumnTypeClass.Other
  ∧ classifyType none = ColumnTypeClass.Unknown := by
  have h := classifyType_total_and_exact "geometry"
  exact ⟨h.2.2.2.2.1 (by decide) (by decide), h.1⟩

/-- Claim C7: `get_column_datatype` with an absent table or column name fails
immediately with the fixed message and an empty event trace (no external
call); `alter_column_to_var` with an absent table name fails with its
parameter-specific message and an empty event trace. -/
theorem missing_parameter_checks (w : World) (tn ta : Option String) :
    get_column_datatype w none ta =
      (Outcome.ret (DTResult.err "The table_name and table_attribute must be specified."), [])
  ∧ get_column_datatype w tn none =
      (Outcome.ret (DTResult.err "The table_name and table_attribute must be specified."), [])
  ∧ alter_column_to_var w none (some "x") =
      (Outcome.ret (AlterResult.err "table_name cannot be None"), []) := by
  refine ⟨?_, ?_, rfl⟩
  · cases ta <;> rfl
  · cases tn <;> rfl

/-- Claim C8: every incompatible verdict carries the explanation naming the
candidate column and its classification text first, then the target column
and its classification text; a present type's classification text is one of
the three fixed strings, an absent type's classification text is absent, and
the formatting step still produces the message (rendering the absent text as
Python does). -/
theorem incompatible_message_format (w : World) (cc : ColumnChecker)
    (t d : Option String) (tr1 tr2 : List Ev)
    (h1 : get_column_datatype w cc.target_table cc.target_attribute =
      (Outcome.ret (DTResult.ok t), tr1))
    (h2 : get_column_datatype w cc.dt_table cc.dt_attribute =
      (Outcome.ret (DTResult.ok d), tr2))
    (hne : t ≠ d)
    (hchar : (is_character_column t && is_character_column d) = false)
    (hnum : (is_numeric_column t && is_numeric_column d) = false) :
    (are_join_columns_compatible w cc).1 = Outcome.ret (CompatResult.err
      ("<br />Your chosen column \"" ++ pyFmt cc.dt_attribute ++ "\" is type " ++
        pyFmt (get_type_text_char_or_numeric d) ++
        ".  However, the chosen layer column \"" ++ pyFmt cc.target_attribute ++
        "\" is type " ++ pyFmt (get_type_text_char_or_numeric t)))
  ∧ (∀ u : String,
      get_type_text_char_or_numeric (some u) = some "a \"character\"" ∨
      get_type_text_char_or_numeric (some u) = some "a \"numeric\"" ∨
      get_type_text_char_or_numeric (some u) = some "neither a character nor a numeric")
  ∧ get_type_text_char_or_numeric none = none := by
  refine ⟨?_, ?_, rfl⟩
  · have h := are_join_err_eq w cc t d tr1 tr2 h1 h2 hne hchar hnum
    simp [h, incompatible_msg]
  · intro u
    unfold get_type_text_char_or_numeric
    cases hc : is_character_column (some u) with
    | true => simp [hc]
    | false =>
      cases hn : is_numeric_column (some u) with
      | true => simp [hc, hn]
      | false => simp [hc, hn]

/-- Witness for C8: the target type is a NULL row value (absent
classification) and the candidate is `text`; the message is still produced,
with the absent classification rendered as `None`. -/
theorem incompatible_message_format_witness :
    (are_join_columns_compatible wNullType ccParcels).1 =
      Outcome.ret (CompatResult.err "<br />Your chosen column \"geoid\" is type a \"character\".  However, the chosen layer column \"geoid\" is type None") := by
  have h := incompatible_message_format wNullType ccParcels none (some "text")
    [Ev.acquire, Ev.query "parcels" "geoid", Ev.release]
    [Ev.acquire, Ev.query "census" "geoid", Ev.release]
    rfl rfl (by decide) (by decide) (by decide)
  exact h.1

/-- Claim C9: on every path of `get_column_datatype` and
`alter_column_to_var` — success, graceful failure, or uncaught exception,
including a failed connection attempt — the number of connection
acquisitions in the event trace equals the number of releases, so no
acquired connection is leaked. -/
theorem connection_always_released (w : World) (tn ta t2 a2 : Option String) :
    ((get_column_datatype w tn ta).2.count Ev.acquire =
      (get_column_datatype w tn ta).2.count Ev.release)
  ∧ ((alter_column_to_var w t2 a2).2.count Ev.acquire =
      (alter_column_to_var w t2 a2).2.count Ev.release) := by
  constructor
  · rcases tn with _ | t
    · cases ta <;> rfl
    rcases ta with _ | c
    · rfl
    cases hc : w.connectOk with
    | false => simp [get_column_datatype, hc]
    | true =>
      rcases hq : w.query t c with dt | e <;>
        simp [get_column_datatype, hc, hq, List.count_cons]
  · rcases t2 with _ | t
    · rfl
    rcases a2 with _ | a
    · rfl
    cases hc : w.connectOk with
    | false => simp [alter_column_to_var, hc]
    | true =>
      cases ha : w.alterOk (alter_stmt_str t a) with
      | true => simp [alter_column_to_var, hc, ha, List.count_cons]
      | false => simp [alter_column_to_var, hc, ha, List.count_cons]

/-- Claim C10: when both lookups succeed, swapping the target and candidate
column references leaves the success/failure outcome of
`are_join_columns_compatible` unchanged. -/
theorem compat_verdict_symmetric (w : World) (cc : ColumnChecker)
    (t d : Option String) (tr1 tr2 : List Ev)
    (h1 : get_column_datatype w cc.target_table cc.target_attribute =
      (Outcome.ret (DTResult.ok t), tr1))
    (h2 : get_column_datatype w cc.dt_table cc.dt_attribute =
      (Outcome.ret (DTResult.ok d), tr2)) :
    ((are_join_columns_compatible w cc).1 = Outcome.ret CompatResult.ok ↔
      (are_join_columns_compatible w (swap_checker cc)).1 = Outcome.ret CompatResult.ok) := by
  rw [are_join_ok_iff w cc t d tr1 tr2 h1 h2,
    are_join_ok_iff w (swap_checker cc) d t tr2 tr1 h2 h1]
  constructor
  · rintro (h | h | h)
    · exact Or.inl h.symm
    · exact Or.inr (Or.inl (by rwa [Bool.and_comm] at h))
    · exact Or.inr (Or.inr (by rwa [Bool.and_comm] at h))
  · rintro (h | h | h)
    · exact Or.inl h.symm
    · exact Or.inr (Or.inl (by rwa [Bool.and_comm] at h))
    · exact Or.inr (Or.inr (by rwa [Bool.and_comm] at h))

/-- Witness for C10: target `text`, candidate `integer` — incompatible in
both orientations, so the two sides of the equivalence are both false. -/
theorem compat_verdict_symmetric_witness :
    ((are_join_columns_compatible wMix ccParcels).1 = Outcome.ret CompatResult.ok ↔
      (are_join_columns_compatible wMix (swap_checker ccParcels)).1 = Outcome.ret CompatResult.ok) :=
  compat_verdict_symmetric wMix ccParcels (some "text") (some "integer")
    [Ev.acquire, Ev.query "parcels" "geoid", Ev.release]
    [Ev.acquire, Ev.query "census" "geoid", Ev.release] rfl rfl
